import Mathlib

/-!
Shallow embedding of `src/FreeRTOS/Demo/CORTEX_M3_MPS2_QEMU_GCC/main_blinky.c`
(FreeRTOS MPS2 QEMU blinky demo): a producer task that synthesizes a
triangular waveform, packs each sample with the current tick count into a
64-bit message, and publishes it on a length-1 queue with a zero block
time; and a consumer task that decodes the message and converts the raw
millivolt reading into milli-degrees Celsius.

Machine integers are modelled as `Nat` (unsigned) or `Int` (signed) with
explicit reduction modulo `2^32` / `2^64` where the C types wrap.
-/

set_option maxRecDepth 100000

namespace MainBlinky

/-! ### Constants (main_blinky.c lines 43-51) -/

def PRECISION : Nat := 1000

def VOLTAGE_LOWER_BOUND : Nat := 0

def VOLTAGE_UPPER_BOUND : Nat := 10000

def TEMPERATURE_LOWER_BOUND : Int := -25000

def TEMPERATURE_UPPER_BOUND : Int := 85000

/-- Embeds `const long VOLTAGE_RANGE = VOLTAGE_UPPER_BOUND - VOLTAGE_LOWER_BOUND;`. -/
def VOLTAGE_RANGE : Int := (VOLTAGE_UPPER_BOUND : Int) - (VOLTAGE_LOWER_BOUND : Int)

/-- Embeds `const long TEMPERATURE_RANGE = TEMPERATURE_UPPER_BOUND - TEMPERATURE_LOWER_BOUND;`. -/
def TEMPERATURE_RANGE : Int := TEMPERATURE_UPPER_BOUND - TEMPERATURE_LOWER_BOUND

/-- Initial value of `static long GRADIENT = (VOLTAGE_UPPER_BOUND - VOLTAGE_LOWER_BOUND) / 20UL;`
(the C expression is computed in unsigned arithmetic: 10000 / 20 = 500). -/
def GRADIENT_INIT : Int := ((VOLTAGE_UPPER_BOUND - VOLTAGE_LOWER_BOUND) / 20 : Nat)

/-- Modulus of the 32-bit unsigned types (`uint32_t`, and `long` on the
ILP32 Cortex-M3 target). -/
def U32_MOD : Nat := 2 ^ 32

/-! ### The producer's waveform state and update (lines 89-113)

`ulValueToSend` is a `uint32_t`, modelled as a `Nat` kept below `2^32`;
`GRADIENT` is a signed `long`, modelled as an `Int` (its value never
leaves {500, -500}, far from overflow). -/

structure WaveformState where
  ulValueToSend : Nat
  gradient : Int
  deriving DecidableEq, Repr

/-- Embeds `ulValueToSend += GRADIENT;` — `uint32_t` plus signed `long`: the usual
arithmetic conversions reduce the sum modulo `2^32`. -/
def natAddWrap (v : Nat) (g : Int) : Nat := (((v : Int) + g) % (U32_MOD : Int)).toNat

/-- The gradient after the reflection checks (lines 106-110):

    if(ulValueToSend >= VOLTAGE_UPPER_BOUND) { GRADIENT *= -1; }
    else if (GRADIENT < 0 && ulValueToSend <= VOLTAGE_LOWER_BOUND) { GRADIENT *= -1; }
-/
def wfGradient (s : WaveformState) : Int :=
  if VOLTAGE_UPPER_BOUND ≤ s.ulValueToSend then s.gradient * -1
  else if s.gradient < 0 ∧ s.ulValueToSend ≤ VOLTAGE_LOWER_BOUND then s.gradient * -1
  else s.gradient

/-- One pass of the body of `prvQueueSendTask`'s loop that updates the
waveform state (lines 106-113): the reflection checks followed by
`ulValueToSend += GRADIENT;`. -/
def wfUpdate (s : WaveformState) : WaveformState :=
  { ulValueToSend := natAddWrap s.ulValueToSend (wfGradient s),
    gradient := wfGradient s }

/-- Initial producer state: `uint32_t ulValueToSend = VOLTAGE_LOWER_BOUND;`
(line 92) together with the initial `GRADIENT` (line 51). -/
def initState : WaveformState :=
  { ulValueToSend := VOLTAGE_LOWER_BOUND, gradient := GRADIENT_INIT }

/-- Two's-complement reading of a 32-bit unsigned value, used to state the
spec's signed bounds on the wrapped `uint32_t` counter. -/
def asSigned32 (v : Nat) : Int := if v < 2 ^ 31 then (v : Int) else (v : Int) - 2 ^ 32

/-! ### Message encoding and decoding (lines 116-118 and 145-146) -/

/-- Embeds `uint64_t msg = ((uint64_t)xTaskGetTickCount()) << 32; msg |= ulValueToSend;`.
The tick count and the reading are both 32-bit values. -/
def encode (tick v : Nat) : Nat := ((tick % U32_MOD) <<< 32) ||| (v % U32_MOD)

/-- Embeds `TickType_t tick = (uint32_t) (ulReceivedValue >> 32);`. -/
def decodeTick (msg : Nat) : Nat := (msg >>> 32) % U32_MOD

/-- Embeds `uint32_t reading = (uint32_t) ulReceivedValue;`. -/
def decodeReading (msg : Nat) : Nat := msg % U32_MOD

/-! ### Lemmas about encode/decode -/

lemma encode_eq_mul_add (tick v : Nat) (hv : v < U32_MOD) :
    encode tick v = (tick % U32_MOD) * 2 ^ 32 + v := by
  have hv' : v % U32_MOD = v := Nat.mod_eq_of_lt hv
  have h := Nat.mul_add_lt_is_or (i := 32) (b := v) (by simpa [U32_MOD] using hv)
      (tick % U32_MOD)
  rw [encode, hv', Nat.shiftLeft_eq, Nat.mul_comm, ← h, Nat.mul_comm]

/-- C1: Encode/decode round-trip: for every tick `t` in the 32-bit range and
every raw value `v` in `[0, 10000]`, decoding the 64-bit word produced by
`encode` recovers exactly `(t, v)`. -/
theorem round_trip (t v : Nat) (ht : t < 2 ^ 32) (hv : v ≤ 10000) :
    decodeTick (encode t v) = t ∧ decodeReading (encode t v) = v := by
  have hv32 : v < U32_MOD := by
    have : (10000 : Nat) < 2 ^ 32 := by norm_num
    simp only [U32_MOD]; omega
  have henc := encode_eq_mul_add t v hv32
  have ht' : t % U32_MOD = t := Nat.mod_eq_of_lt (by simpa [U32_MOD] using ht)
  rw [henc, ht']
  simp only [U32_MOD] at hv32
  constructor
  · rw [decodeTick, Nat.shiftRight_eq_div_pow]
    simp only [U32_MOD]
    omega
  · rw [decodeReading]
    simp only [U32_MOD]
    omega

/-- Witness for C1 at the spec's concrete example: `decode (encode 7 500) = (7, 500)`. -/
theorem round_trip_witness :
    decodeTick (encode 7 500) = 7 ∧ decodeReading (encode 7 500) = 500 :=
  round_trip 7 500 (by norm_num) (by norm_num)

/-! ### The waveform update step (C2) -/

/-- C2: One waveform update step follows exactly the asymmetric reflection
algorithm: if `v ≥ RAW_HIGH` the gradient is negated unconditionally;
otherwise, if the gradient is negative and `v ≤ RAW_LOW` it is negated;
the new value is then `v + g` reduced modulo `2^32` with no clamping.
In particular `(10000, +500)` steps to `(9500, -500)`. -/
theorem wfUpdate_characterization :
    (∀ v g, VOLTAGE_UPPER_BOUND ≤ v →
      wfUpdate ⟨v, g⟩ = ⟨natAddWrap v (-g), -g⟩) ∧
    (∀ v g, v < VOLTAGE_UPPER_BOUND → g < 0 → v ≤ VOLTAGE_LOWER_BOUND →
      wfUpdate ⟨v, g⟩ = ⟨natAddWrap v (-g), -g⟩) ∧
    (∀ v g, v < VOLTAGE_UPPER_BOUND → ¬(g < 0 ∧ v ≤ VOLTAGE_LOWER_BOUND) →
      wfUpdate ⟨v, g⟩ = ⟨natAddWrap v g, g⟩) ∧
    wfUpdate ⟨10000, 500⟩ = ⟨9500, -500⟩ := by
  refine ⟨?_, ?_, ?_, ?_⟩
  · intro v g h
    simp [wfUpdate, wfGradient, h]
  · intro v g hv hg hlow
    simp [wfUpdate, wfGradient, Nat.not_le.mpr hv, hg, hlow]
  · intro v g hv hno
    simp [wfUpdate, wfGradient, Nat.not_le.mpr hv, hno]
  · decide

/-- Witness for C2: each conditional branch applied at a concrete state. -/
theorem wfUpdate_characterization_witness :
    wfUpdate ⟨10000, 500⟩ = ⟨natAddWrap 10000 (-500), -500⟩ ∧
    wfUpdate ⟨0, -500⟩ = ⟨natAddWrap 0 500, 500⟩ ∧
    wfUpdate ⟨300, 500⟩ = ⟨natAddWrap 300 500, 500⟩ :=
  ⟨wfUpdate_characterization.1 10000 500 (by decide),
   wfUpdate_characterization.2.1 0 (-500) (by decide) (by decide) (by decide),
   wfUpdate_characterization.2.2.1 300 500 (by decide) (by decide)⟩

/-! ### Bounded-overshoot invariant (C3)

The C counter is a `uint32_t`; descending through 0 wraps it to values
just below `2^32`, which are exactly the small negative numbers in the
two's-complement reading `asSigned32`. The inductive invariant `Kinv`
captures the reachable region. -/

/-- A valid starting state in the sense of the spec: value in
`[RAW_LOW, RAW_HIGH]`, step in `{+500, -500}`. -/
def ValidInit (s : WaveformState) : Prop :=
  s.ulValueToSend ≤ VOLTAGE_UPPER_BOUND ∧ (s.gradient = 500 ∨ s.gradient = -500)

/-- Inductive invariant for the waveform update: when ascending the value
is at most 10500; when descending it is at most 10000 or has wrapped to
the top 499 values of the 32-bit range (signed reading in [-499, -1]). -/
def Kinv (s : WaveformState) : Prop :=
  s.ulValueToSend < 2 ^ 32 ∧
    ((s.gradient = 500 ∧ s.ulValueToSend ≤ 10500) ∨
     (s.gradient = -500 ∧ (s.ulValueToSend ≤ 10000 ∨ 2 ^ 32 - 499 ≤ s.ulValueToSend)))

lemma Kinv_of_validInit (s : WaveformState) (h : ValidInit s) : Kinv s := by
  obtain ⟨v, g⟩ := s
  obtain ⟨hv, hg⟩ := h
  simp only [ValidInit, VOLTAGE_UPPER_BOUND, Kinv] at *
  rcases hg with hg | hg <;> subst hg <;> simp <;> omega

lemma Kinv_step (s : WaveformState) (h : Kinv s) : Kinv (wfUpdate s) := by
  obtain ⟨v, g⟩ := s
  obtain ⟨hv32, hcase⟩ := h
  simp only [Kinv, wfUpdate, wfGradient, natAddWrap, VOLTAGE_UPPER_BOUND,
    VOLTAGE_LOWER_BOUND, U32_MOD] at *
  rcases hcase with ⟨hg, hle⟩ | ⟨hg, hle⟩ <;> subst hg <;>
    split_ifs with h1 h2 <;> simp_all <;> omega

lemma Kinv_iterate (s : WaveformState) (h : Kinv s) (n : ℕ) :
    Kinv (wfUpdate^[n] s) := by
  induction n with
  | zero => simpa using h
  | succ m ih => rw [Function.iterate_succ_apply']; exact Kinv_step _ ih

lemma Kinv_bounds (s : WaveformState) (h : Kinv s) :
    -500 ≤ asSigned32 s.ulValueToSend ∧ asSigned32 s.ulValueToSend ≤ 10500 := by
  obtain ⟨hv32, hcase⟩ := h
  simp only [asSigned32]
  split_ifs with h31 <;> omega

/-- C3: Bounded-overshoot invariant: for every sequence of updates from any
valid state (value in `[0, 10000]`, step `±500`), the value after each
update — read as a 32-bit two's-complement integer — stays within
`[RAW_LOW - STEP, RAW_HIGH + STEP] = [-500, 10500]`; in particular the
trajectory never diverges. -/
theorem waveform_bounded (s₀ : WaveformState) (h : ValidInit s₀) (n : ℕ) :
    -500 ≤ asSigned32 ((wfUpdate^[n] s₀).ulValueToSend) ∧
      asSigned32 ((wfUpdate^[n] s₀).ulValueToSend) ≤ 10500 :=
  Kinv_bounds _ (Kinv_iterate s₀ (Kinv_of_validInit s₀ h) n)

/-- Witness for C3 at the real initial state, three updates in. -/
theorem waveform_bounded_witness :
    -500 ≤ asSigned32 ((wfUpdate^[3] (⟨0, 500⟩ : WaveformState)).ulValueToSend) ∧
      asSigned32 ((wfUpdate^[3] (⟨0, 500⟩ : WaveformState)).ulValueToSend) ≤ 10500 :=
  waveform_bounded ⟨0, 500⟩ ⟨by norm_num [VOLTAGE_UPPER_BOUND], Or.inl rfl⟩ 3

/-! ### Step-magnitude invariant (C9) -/

/-- C9: The gradient starts at `(VOLTAGE_UPPER_BOUND - VOLTAGE_LOWER_BOUND) / 20 = 500`,
every update either keeps it or negates it, and hence on the real
trajectory its absolute value is always exactly 500. -/
theorem gradient_magnitude :
    GRADIENT_INIT = 500 ∧
    (∀ s : WaveformState,
      (wfUpdate s).gradient = s.gradient ∨ (wfUpdate s).gradient = -s.gradient) ∧
    (∀ n, (wfUpdate^[n] initState).gradient = 500 ∨
      (wfUpdate^[n] initState).gradient = -500) := by
  refine ⟨by decide, ?_, ?_⟩
  · intro s
    simp only [wfUpdate, wfGradient]
    split_ifs <;> simp
  · intro n
    induction n with
    | zero => exact Or.inl (by decide)
    | succ m ih =>
      rw [Function.iterate_succ_apply']
      simp only [wfUpdate, wfGradient]
      rcases ih with h | h <;> rw [h] <;> split_ifs <;> simp

/-! ### Reflection property (C4)

The upper-bound negation at line 106 is unconditional: if the state already
descends (`gradient < 0`) while the value is at or above the bound, the
gradient is flipped back to positive. The spec's reflection property
therefore holds only for states that reach the upper bound while
ascending and that exceed it by less than one step. -/

/-- C4 counterexample: the claim quantifies over any state with
`value ≥ RAW_HIGH`. At `(10000, -500)` the next update makes the step
`+500`, not negative; and from `(10500, +500)` the step turns negative for
one update (value 10000, still positive) but is positive again on the
second update although the value never reached `RAW_LOW`. -/
theorem reflection_counterexample :
    (wfUpdate ⟨10000, -500⟩).gradient = 500 ∧
    (wfUpdate^[1] (⟨10500, 500⟩ : WaveformState)).gradient = -500 ∧
    asSigned32 ((wfUpdate^[1] (⟨10500, 500⟩ : WaveformState)).ulValueToSend) = 10000 ∧
    (wfUpdate^[2] (⟨10500, 500⟩ : WaveformState)).gradient = 500 := by
  decide

lemma reflection_Q (v₀ : ℕ) (h1 : 10000 ≤ v₀) (h2 : v₀ < 10500) :
    ∀ m : ℕ,
      (∀ k, 1 ≤ k → k < m + 1 →
        0 < asSigned32 ((wfUpdate^[k] (⟨v₀, 500⟩ : WaveformState)).ulValueToSend)) →
      (wfUpdate^[m + 1] (⟨v₀, 500⟩ : WaveformState)).gradient = -500 ∧
      ((wfUpdate^[m + 1] (⟨v₀, 500⟩ : WaveformState)).ulValueToSend ≤ 9999 ∨
        2 ^ 32 - 499 ≤ (wfUpdate^[m + 1] (⟨v₀, 500⟩ : WaveformState)).ulValueToSend) ∧
      (wfUpdate^[m + 1] (⟨v₀, 500⟩ : WaveformState)).ulValueToSend < 2 ^ 32 := by
  intro m
  induction m with
  | zero =>
    intro _
    rw [Function.iterate_one]
    simp only [wfUpdate, wfGradient, natAddWrap, VOLTAGE_UPPER_BOUND,
      VOLTAGE_LOWER_BOUND, U32_MOD]
    rw [if_pos h1]
    refine ⟨by norm_num, ?_, ?_⟩ <;> omega
  | succ p ih =>
    intro hpos
    have hpos' : ∀ k, 1 ≤ k → k < p + 1 →
        0 < asSigned32 ((wfUpdate^[k] (⟨v₀, 500⟩ : WaveformState)).ulValueToSend) :=
      fun k hk1 hk2 => hpos k hk1 (by omega)
    obtain ⟨hg, hrange, h32⟩ := ih hpos'
    have hcur : 0 < asSigned32 ((wfUpdate^[p + 1] (⟨v₀, 500⟩ : WaveformState)).ulValueToSend) :=
      hpos (p + 1) (by omega) (by omega)
    set s := wfUpdate^[p + 1] (⟨v₀, 500⟩ : WaveformState) with hs
    have hv : 1 ≤ s.ulValueToSend ∧ s.ulValueToSend ≤ 9999 := by
      simp only [asSigned32] at hcur
      split_ifs at hcur <;> omega
    have hstep : wfUpdate^[p + 1 + 1] (⟨v₀, 500⟩ : WaveformState) = wfUpdate s := by
      rw [Function.iterate_succ_apply']
    rw [hstep]
    simp only [wfUpdate, wfGradient, natAddWrap, VOLTAGE_UPPER_BOUND,
      VOLTAGE_LOWER_BOUND, U32_MOD, hg]
    rw [if_neg (by omega), if_neg (by omega)]
    refine ⟨rfl, ?_, ?_⟩ <;> omega

/-- C4 (amended): for any state that is at or above `RAW_HIGH` by less than
one step while ascending (`RAW_HIGH ≤ v < RAW_HIGH + 500`, gradient `+500`),
the step becomes negative on the next update and remains negative on every
subsequent update as long as the (signed) value has stayed above `RAW_LOW`. -/
theorem reflection_amended (v₀ : ℕ) (h1 : 10000 ≤ v₀) (h2 : v₀ < 10500) :
    (wfUpdate^[1] (⟨v₀, 500⟩ : WaveformState)).gradient = -500 ∧
    ∀ n, 1 ≤ n →
      (∀ k, 1 ≤ k → k < n →
        0 < asSigned32 ((wfUpdate^[k] (⟨v₀, 500⟩ : WaveformState)).ulValueToSend)) →
      (wfUpdate^[n] (⟨v₀, 500⟩ : WaveformState)).gradient = -500 := by
  constructor
  · exact (reflection_Q v₀ h1 h2 0 (by intro k hk1 hk2; omega)).1
  · intro n hn hpos
    obtain ⟨m, rfl⟩ : ∃ m, n = m + 1 := ⟨n - 1, by omega⟩
    exact (reflection_Q v₀ h1 h2 m hpos).1

/-- Witness for C4 (amended) at `v₀ = 10000`, three updates in. -/
theorem reflection_amended_witness :
    (wfUpdate^[3] (⟨10000, 500⟩ : WaveformState)).gradient = -500 :=
  (reflection_amended 10000 (by norm_num) (by norm_num)).2 3 (by norm_num)
    (by intro k hk1 hk2; interval_cases k <;> decide)

/-! ### Exact periodic trajectory (C10) -/

lemma iterate41 : wfUpdate^[41] initState = wfUpdate^[1] initState := by decide

lemma traj_shift40 (n : ℕ) (h : 1 ≤ n) :
    wfUpdate^[n + 40] initState = wfUpdate^[n] initState := by
  obtain ⟨m, rfl⟩ : ∃ m, n = m + 1 := ⟨n - 1, by omega⟩
  have h1 : m + 1 + 40 = m + 41 := by omega
  rw [h1, Function.iterate_add_apply, iterate41, ← Function.iterate_add_apply]

lemma traj_inRange (n : ℕ) :
    (wfUpdate^[n] initState).ulValueToSend ≤ 10000 ∧
      500 ∣ (wfUpdate^[n] initState).ulValueToSend := by
  induction n using Nat.strong_induction_on with
  | _ n ih =>
    rcases le_or_lt n 40 with h | h
    · have hall : ∀ r ∈ Finset.range 41,
          (wfUpdate^[r] initState).ulValueToSend ≤ 10000 ∧
            500 ∣ (wfUpdate^[r] initState).ulValueToSend := by decide
      exact hall n (Finset.mem_range.mpr (by omega))
    · have h' : n = (n - 40) + 40 := by omega
      rw [h', traj_shift40 _ (by omega)]
      exact ih (n - 40) (by omega)

/-- C10: From the producer's real initial state `(0, +500)`, the values
after each update are exactly `500, 1000, ..., 10000, 9500, ..., 500, 0`,
repeating with period 40; every value sent lies in `[0, 10000]` and is a
multiple of 500 — the transient overshoot allowed by the spec never occurs
on this trajectory. -/
theorem exact_trajectory :
    (List.range 40).map (fun k => (wfUpdate^[k + 1] initState).ulValueToSend) =
      [500, 1000, 1500, 2000, 2500, 3000, 3500, 4000, 4500, 5000,
       5500, 6000, 6500, 7000, 7500, 8000, 8500, 9000, 9500, 10000,
       9500, 9000, 8500, 8000, 7500, 7000, 6500, 6000, 5500, 5000,
       4500, 4000, 3500, 3000, 2500, 2000, 1500, 1000, 500, 0] ∧
    (∀ n, 1 ≤ n → wfUpdate^[n + 40] initState = wfUpdate^[n] initState) ∧
    (∀ n, (wfUpdate^[n] initState).ulValueToSend ≤ 10000 ∧
      500 ∣ (wfUpdate^[n] initState).ulValueToSend) :=
  ⟨by decide, traj_shift40, traj_inRange⟩

/-- Witness for C10's periodicity part at `n = 2`. -/
theorem exact_trajectory_witness :
    wfUpdate^[42] initState = wfUpdate^[2] initState :=
  exact_trajectory.2.1 2 (by norm_num)

/-! ### Raw-to-physical conversion (C5, C6)

Line 149 computes, in C `double` arithmetic,

    long temperature = (reading - VOLTAGE_LOWER_BOUND) / (double)VOLTAGE_RANGE
                         * TEMPERATURE_RANGE + TEMPERATURE_LOWER_BOUND;

The `double` computation is modelled with exact rational arithmetic, and
the `double`-to-`long` cast as truncation toward zero. On the concrete
inputs of the claims (0, 5000, 10000) every intermediate `double` value is
exactly representable, so the rational model coincides with IEEE-754
evaluation there, and IEEE-754 rounding is monotone. -/

def convertExact (reading : Nat) : ℚ :=
  ((reading : ℚ) - (VOLTAGE_LOWER_BOUND : ℚ)) / (VOLTAGE_RANGE : ℚ) * (TEMPERATURE_RANGE : ℚ)
    + (TEMPERATURE_LOWER_BOUND : ℚ)

/-- The `long temperature` value: the C conversion from `double` to `long`
truncates toward zero. -/
def temperature (reading : Nat) : Int :=
  (convertExact reading).num.tdiv ((convertExact reading).den : Int)

lemma convertExact_eq (r : Nat) : convertExact r = 11 * (r : ℚ) - 25000 := by
  simp only [convertExact, VOLTAGE_RANGE, VOLTAGE_UPPER_BOUND, VOLTAGE_LOWER_BOUND,
    TEMPERATURE_RANGE, TEMPERATURE_LOWER_BOUND, TEMPERATURE_UPPER_BOUND]
  push_cast
  field_simp
  ring

lemma temperature_eq (r : Nat) : temperature r = 11 * (r : Int) - 25000 := by
  have h : convertExact r = ((11 * (r : Int) - 25000 : Int) : ℚ) := by
    rw [convertExact_eq]; push_cast; ring
  rw [temperature, h, Rat.num_intCast, Rat.den_intCast]
  simp

/-- C5: Conversion linearity: the affine transform maps `RAW_LOW` to
`PHYS_LOW` and `RAW_HIGH` to `PHYS_HIGH` exactly, and is strictly
monotonically increasing on the raw domain `[0, 10000]`. -/
theorem conversion_linear :
    temperature VOLTAGE_LOWER_BOUND = TEMPERATURE_LOWER_BOUND ∧
    temperature VOLTAGE_UPPER_BOUND = TEMPERATURE_UPPER_BOUND ∧
    ∀ a b : Nat, a < b → b ≤ VOLTAGE_UPPER_BOUND → temperature a < temperature b := by
  refine ⟨?_, ?_, ?_⟩
  · rw [temperature_eq]
    norm_num [VOLTAGE_LOWER_BOUND, TEMPERATURE_LOWER_BOUND]
  · rw [temperature_eq]
    norm_num [VOLTAGE_UPPER_BOUND, TEMPERATURE_UPPER_BOUND]
  · intro a b hab _
    rw [temperature_eq, temperature_eq]
    omega

/-- Witness for C5's monotonicity part at `3 < 5`. -/
theorem conversion_linear_witness : temperature 3 < temperature 5 :=
  conversion_linear.2.2 3 5 (by norm_num) (by norm_num [VOLTAGE_UPPER_BOUND])

/-- C6: Midpoint conversion: raw value 5000 converts to exactly 30000
milli-degrees Celsius (midpoint of `[-25000, 85000]`). -/
theorem midpoint_conversion : temperature 5000 = 30000 := by
  rw [temperature_eq]
  norm_num

/-! ### The capacity-1 channel and the zero-wait publish (C7)

The queue primitive (`xQueueCreate` / `xQueueSend` / `xQueueReceive`) is an
external collaborator whose implementation is not under `src/`; it is
modelled from the spec's channel contract (§5, §6). The producer's use of
it — a zero block time and a discarded return value (line 124) — is from
the source. -/

/-- Modelled from the spec: the `SampleChannel` collaborator, a capacity-1
channel created by `xQueueCreate(mainQUEUE_LENGTH = 1, sizeof(uint64_t))`:
either empty or holding one 64-bit message. -/
abbrev Channel : Type := Option Nat

/-- Modelled from the spec: `xQueueSend(xQueue, &msg, 0U)` — a publish with
zero block time succeeds exactly when the single slot is empty; on a full
channel it fails immediately without blocking and without touching the
occupied slot. Returns the updated channel and the status the caller
discards. -/
def sendZeroWait (ch : Channel) (msg : Nat) : Channel × Bool :=
  match ch with
  | none => (some msg, true)
  | some m => (some m, false)

/-- One full cycle of `prvQueueSendTask`'s loop body (lines 106-124):
update the waveform, stamp the new value with the tick count, attempt the
zero-wait publish, and discard the publish status. -/
def producerCycle (s : WaveformState) (tick : Nat) (ch : Channel) :
    WaveformState × Channel :=
  let s' := wfUpdate s
  let msg := encode tick s'.ulValueToSend
  (s', (sendZeroWait ch msg).1)

/-- C7: Zero-wait publish with silent drop: on a full channel the publish
attempt fails immediately, the occupied slot is untouched (the sample is
dropped), and — full channel or not — the producer's waveform state is
updated exactly as usual, with the publish status discarded (no retry, no
blocking, no error propagated). -/
theorem zero_wait_silent_drop (s : WaveformState) (tick : Nat) (ch : Channel)
    (m : Nat) (hfull : ch = some m) :
    (sendZeroWait ch (encode tick (wfUpdate s).ulValueToSend)).2 = false ∧
    (producerCycle s tick ch).2 = some m ∧
    (∀ ch' : Channel, (producerCycle s tick ch').1 = wfUpdate s) := by
  subst hfull
  refine ⟨rfl, rfl, ?_⟩
  intro ch'
  cases ch' <;> rfl

/-- Witness for C7 with a full channel holding the message `encode 3 100`. -/
theorem zero_wait_silent_drop_witness :
    (sendZeroWait (some (encode 3 100))
        (encode 7 (wfUpdate ⟨0, 500⟩).ulValueToSend)).2 = false ∧
    (producerCycle ⟨0, 500⟩ 7 (some (encode 3 100))).2 = some (encode 3 100) ∧
    (∀ ch' : Channel, (producerCycle ⟨0, 500⟩ 7 ch').1 = wfUpdate ⟨0, 500⟩) :=
  zero_wait_silent_drop ⟨0, 500⟩ 7 (some (encode 3 100)) (encode 3 100) rfl

/-! ### Startup control flow (C8)

`xQueueCreate` and `xTaskCreate` may fail for lack of heap; their
success/failure is a boolean environment. The control flow below embeds
`main_blinky` (lines 53-87): the queue-creation result is tested, the two
`xTaskCreate` results are DISCARDED, the scheduler is started whenever the
queue exists, and the `for(;;);` idle loop is reached when the queue was
not created (`vTaskStartScheduler` not returning on success). -/

structure StartupEnv where
  queueOk : Bool
  rxTaskOk : Bool
  txTaskOk : Bool
  deriving DecidableEq, Repr

structure StartupOutcome where
  rxCreateAttempted : Bool
  txCreateAttempted : Bool
  schedulerStarted : Bool
  idleHalt : Bool
  deriving DecidableEq, Repr

/-- Embeds `main_blinky` (lines 53-87): `if (xQueue != NULL) { xTaskCreate(Rx);
xTaskCreate(TX); vTaskStartScheduler(); } for(;;);` — no branch inspects
the `xTaskCreate` results. -/
def main_blinky (env : StartupEnv) : StartupOutcome :=
  if env.queueOk then
    { rxCreateAttempted := true, txCreateAttempted := true,
      schedulerStarted := true, idleHalt := false }
  else
    { rxCreateAttempted := false, txCreateAttempted := false,
      schedulerStarted := false, idleHalt := true }

/-- C8 counterexample: with the queue created but both task creations
failing, `main_blinky` still starts the scheduler — contradicting the
claim that any startup creation failure leaves the scheduler unstarted. -/
theorem startup_counterexample :
    (main_blinky ⟨true, false, false⟩).schedulerStarted = true := by
  decide

/-- C8 (amended): only queue-creation failure is handled: if the channel
cannot be created the process halts in the idle loop without creating any
task and without starting the scheduler, and no retry is attempted; the
`xTaskCreate` results are never checked, and the scheduler is started
whenever the queue exists. -/
theorem startup_amended :
    (∀ env : StartupEnv, env.queueOk = false →
      (main_blinky env).schedulerStarted = false ∧
      (main_blinky env).idleHalt = true ∧
      (main_blinky env).rxCreateAttempted = false ∧
      (main_blinky env).txCreateAttempted = false) ∧
    (∀ env : StartupEnv, env.queueOk = true →
      (main_blinky env).schedulerStarted = true) := by
  constructor
  · intro env h
    simp [main_blinky, h]
  · intro env h
    simp [main_blinky, h]

/-- Witness for C8 (amended) at a concrete failing environment. -/
theorem startup_amended_witness :
    (main_blinky ⟨false, true, true⟩).schedulerStarted = false ∧
    (main_blinky ⟨false, true, true⟩).idleHalt = true ∧
    (main_blinky ⟨false, true, true⟩).rxCreateAttempted = false ∧
    (main_blinky ⟨false, true, true⟩).txCreateAttempted = false :=
  startup_amended.1 ⟨false, true, true⟩ rfl

end MainBlinky
